import Mathlib

/-!
Verification of the Vega P&L engine: a shallow embedding of the IV shock
model, the Greeks estimator and the P&L engine, together with proofs of the
numeric contracts stated in the specification.

The repository ships `dashboard.py` (the Dash UI, whose `compute_pnl`
callback builds the parameter record consumed by every query) and
`test_engine.py` (the test suite exercising `IVModel`, `GreeksCalculator`
and the engine built by `create_pnl_engine`).  The engine modules
themselves (`iv_model.py`, `greeks.py`, `pnl_engine.py`, `config.py`) are
not part of the available sources, so the definitions below carry
`Modelled from the spec:` doc comments and follow the specification's
formulas (sections 3, 4.1, 4.2, 4.3 and 7) together with the call shapes
visible in `test_engine.py` and `dashboard.py`.

Real-valued quantities are modelled by `ℝ` (the term adjustment uses the
real power `(reference_tenor_days / dte) ^ term_structure_slope`,
`Real.rpow`).  Scenario spot changes and moneyness coordinates, which the
engine compares and sorts, are modelled by `ℚ` so that the control flow of
the embedding is decidable.  Fallible operations return
`Except EngineError`, one constructor per named failure condition of
section 7.
-/

noncomputable section

/-- Modelled from the spec: the error taxonomy of section 7
(`UnknownScenario`, `InvalidTenor`, `InsufficientScenarios`,
`InsufficientGridResolution`, `MisalignedGrid`).  The engine modules that
raise these are not under the available sources. -/
inductive EngineError where
  | unknownScenario
  | invalidTenor
  | insufficientScenarios
  | insufficientGridResolution
  | misalignedGrid
  deriving DecidableEq, Repr

/-- Modelled from the spec: an ExposureGrid (section 3) — a 2-D table of
dollar vega, rows indexed by moneyness, columns by expiry.  Expiries are
kept as days-to-expiry (the engine's day count relative to the evaluation
date); `cell i j` is the value at row `i`, column `j`. -/
structure ExposureGrid where
  moneyness : List ℚ
  expiryDays : List ℕ
  cell : ℕ → ℕ → ℝ

instance : Inhabited ExposureGrid := ⟨⟨[], [], fun _ _ => 0⟩⟩

/-- A scenario set: label to signed fractional spot change (section 3). -/
abbrev ScenarioSet := List (String × ℚ)

/-- A grid book: label to exposure grid (section 3). -/
abbrev GridBook := List (String × ExposureGrid)

/-- Modelled from the spec: the `IVModel` of section 4.1, constructed in
`test_engine.py` with the four keyword fields; `iv_model.py` itself is not
under the available sources. -/
structure IVModel where
  spot_vol_beta : ℝ
  skew_factor : ℝ
  term_structure_slope : ℝ
  reference_tenor_days : ℝ

/-- Modelled from the spec:
`term_adjustment(dte) = (reference_tenor_days / dte) ** term_structure_slope`
(section 4.1), with the real power `Real.rpow`. -/
def IVModel.term_adjustment (m : IVModel) (dte : ℝ) : ℝ :=
  (m.reference_tenor_days / dte) ^ m.term_structure_slope

/-- Modelled from the spec: the value of the ATM IV change,
`spot_vol_beta * (spot_change * 100) * term_adjustment(days_to_expiry)`
(section 4.1). -/
def IVModel.atmRaw (m : IVModel) (spot_change dte : ℝ) : ℝ :=
  m.spot_vol_beta * (spot_change * 100) * m.term_adjustment dte

/-- Modelled from the spec: `estimate_atm_iv_change` (section 4.1); a
non-positive tenor fails with `InvalidTenor`. -/
def IVModel.estimate_atm_iv_change (m : IVModel) (spot_change dte : ℝ) :
    Except EngineError ℝ :=
  if dte ≤ 0 then .error .invalidTenor else .ok (m.atmRaw spot_change dte)

/-- Modelled from the spec: the skew multiplier
`1 + skew_factor * sign(spot_change) * (1 - moneyness)` (section 4.1). -/
def IVModel.skewMultiplier (m : IVModel) (spot_change moneyness : ℝ) : ℝ :=
  1 + m.skew_factor * Real.sign spot_change * (1 - moneyness)

/-- Modelled from the spec: the value of the IV change at a moneyness, the
ATM change scaled by the skew multiplier (section 4.1). -/
def IVModel.ivRaw (m : IVModel) (spot_change moneyness dte : ℝ) : ℝ :=
  m.atmRaw spot_change dte * m.skewMultiplier spot_change moneyness

/-- Modelled from the spec: `estimate_iv_change` (section 4.1). -/
def IVModel.estimate_iv_change (m : IVModel) (spot_change moneyness dte : ℝ) :
    Except EngineError ℝ :=
  if dte ≤ 0 then .error .invalidTenor
  else .ok (m.ivRaw spot_change moneyness dte)

/-- The parameter record built by `compute_pnl` in `dashboard.py`
(lines 269-275): the five keys `spot_vol_beta`, `skew_factor`,
`term_structure_slope`, `volga_scalar`, `reference_tenor_days`, consumed by
every `calculate_pnl` query. -/
structure ModelParameters where
  spot_vol_beta : ℝ
  skew_factor : ℝ
  term_structure_slope : ℝ
  volga_scalar : ℝ
  reference_tenor_days : ℝ

/-- The IV model the engine builds from a parameter record (spec 4.3
step 2). -/
def ivModelOf (p : ModelParameters) : IVModel :=
  ⟨p.spot_vol_beta, p.skew_factor, p.term_structure_slope,
    p.reference_tenor_days⟩

/-- Modelled from the spec: the `GreeksCalculator` constructed in
`test_engine.py` with its `volga_scalar`; `greeks.py` is not under the
available sources. -/
structure GreeksCalculator where
  volga_scalar : ℝ

/-- Scenario-set lookup (first matching label). -/
def lookupScen : ScenarioSet → String → Option ℚ
  | [], _ => none
  | q :: rest, lbl => if lbl = q.1 then some q.2 else lookupScen rest lbl

/-- Grid-book lookup (first matching label). -/
def lookupBook : GridBook → String → Option ExposureGrid
  | [], _ => none
  | q :: rest, lbl => if lbl = q.1 then some q.2 else lookupBook rest lbl

/-- Insert one scenario into a list kept ascending by spot change. -/
def insertScen (p : String × ℚ) : ScenarioSet → ScenarioSet
  | [] => [p]
  | q :: rest => if p.2 ≤ q.2 then p :: q :: rest else q :: insertScen p rest

/-- Sort a scenario set ascending by spot change (insertion sort): the
spot-change ordering of section 3. -/
def sortScen : ScenarioSet → ScenarioSet
  | [] => []
  | p :: rest => insertScen p (sortScen rest)

/-- Position of the zero-shock reference scenario in a scenario list. -/
def findZeroIdx : ScenarioSet → Option ℕ
  | [] => none
  | q :: rest => if q.2 = 0 then some 0 else (findZeroIdx rest).map (· + 1)

/-- First zero-shock entry of a scenario list (the reference scenario). -/
def findZero : ScenarioSet → Option (String × ℚ)
  | [] => none
  | q :: rest => if q.2 = 0 then some q else findZero rest

/-- Modelled from the spec: pick the two scenarios flanking the zero-shock
reference in the ascending spot-change ordering (section 4.2) — the
adjacent pair when the reference is interior, the two nearest on the
available side when it sits at a boundary; `none` when no such pair
exists. -/
def bracketScenarios (l : ScenarioSet) :
    Option ((String × ℚ) × (String × ℚ)) :=
  match findZeroIdx l with
  | none => none
  | some i =>
    match (if i = 0 then none else l[i - 1]?), l[i + 1]? with
    | some d, some u => some (d, u)
    | none, some u =>
      match l[i + 2]? with
      | some u2 => some (u, u2)
      | none => none
    | some d, none =>
      match (if i < 2 then none else l[i - 2]?) with
      | some d2 => some (d2, d)
      | none => none
    | none, none => none

/-- The vanna grid produced by the finite difference of section 4.2:
cell values `(vega_up - vega_down) / (spot_up - spot_down) *
current_spot`, on the index sets of the down grid. -/
def vannaGridOf (gd gu : ExposureGrid) (spotDown spotUp : ℚ)
    (current_spot : ℝ) : ExposureGrid :=
  { moneyness := gd.moneyness
    expiryDays := gd.expiryDays
    cell := fun i j =>
      (gu.cell i j - gd.cell i j) / ((spotUp : ℝ) - (spotDown : ℝ)) *
        current_spot }

/-- Modelled from the spec: `estimate_vanna_from_grids` (section 4.2) — a
finite difference of vega across the two scenarios flanking the zero-shock
reference, `(vega_up - vega_down) / (spot_up - spot_down) * current_spot`;
fewer scenarios than the bracket needs fails with `InsufficientScenarios`,
a bracket scenario with no grid in the book fails with `UnknownScenario`
(section 7). -/
def GreeksCalculator.estimate_vanna_from_grids (_c : GreeksCalculator)
    (book : GridBook) (scen : ScenarioSet) (current_spot : ℝ) :
    Except EngineError ExposureGrid :=
  match bracketScenarios (sortScen scen) with
  | none => .error .insufficientScenarios
  | some (down, up) =>
    match lookupBook book down.1, lookupBook book up.1 with
    | some gd, some gu => .ok (vannaGridOf gd gu down.2 up.2 current_spot)
    | _, _ => .error .unknownScenario

/-- Modelled from the spec: the discrete second difference of vega across
adjacent moneyness rows, one-sided at the boundary rows (section 4.2). -/
def secondDiffMoneyness (g : ExposureGrid) (i j : ℕ) : ℝ :=
  let n := g.moneyness.length
  if i = 0 then g.cell 2 j - 2 * g.cell 1 j + g.cell 0 j
  else if i = n - 1 then
    g.cell (n - 1) j - 2 * g.cell (n - 2) j + g.cell (n - 3) j
  else g.cell (i + 1) j - 2 * g.cell i j + g.cell (i - 1) j

/-- The volga grid of section 4.2: the moneyness curvature of the
reference grid scaled by `volga_scalar`, on the reference grid's index
sets. -/
def volgaGridOf (volga_scalar : ℝ) (g : ExposureGrid) : ExposureGrid :=
  { moneyness := g.moneyness
    expiryDays := g.expiryDays
    cell := fun i j => volga_scalar * secondDiffMoneyness g i j }

/-- Modelled from the spec: `estimate_volga` (section 4.2) — the moneyness
curvature of the reference grid scaled by `volga_scalar`; fewer than 3
moneyness rows fails with `InsufficientGridResolution`. -/
def GreeksCalculator.estimate_volga (c : GreeksCalculator)
    (g : ExposureGrid) : Except EngineError ExposureGrid :=
  if g.moneyness.length < 3 then .error .insufficientGridResolution
  else .ok (volgaGridOf c.volga_scalar g)

/-- The IV-change grid of a query (spec 4.3 step 3): per cell, the IV
change at that cell's moneyness and days-to-expiry. -/
def ivChangeGrid (m : IVModel) (spot_change : ℝ) (g : ExposureGrid) :
    ExposureGrid :=
  { moneyness := g.moneyness
    expiryDays := g.expiryDays
    cell := fun i j =>
      m.ivRaw spot_change ((g.moneyness.getD i 0 : ℚ) : ℝ)
        ((g.expiryDays.getD j 0 : ℕ) : ℝ) }

/-- Per-cell vega P&L, `vega * iv_change` (spec 4.3 step 5). -/
def vegaPnlGrid (vega iv : ExposureGrid) : ExposureGrid :=
  { moneyness := vega.moneyness
    expiryDays := vega.expiryDays
    cell := fun i j => vega.cell i j * iv.cell i j }

/-- Per-cell vanna P&L, `vanna * spot_change * iv_change` (spec 4.3
step 5). -/
def vannaPnlGrid (vanna iv : ExposureGrid) (spot_change : ℝ) :
    ExposureGrid :=
  { moneyness := vanna.moneyness
    expiryDays := vanna.expiryDays
    cell := fun i j => vanna.cell i j * spot_change * iv.cell i j }

/-- Per-cell volga P&L, `0.5 * volga * iv_change ** 2` (spec 4.3
step 5). -/
def volgaPnlGrid (volga iv : ExposureGrid) : ExposureGrid :=
  { moneyness := volga.moneyness
    expiryDays := volga.expiryDays
    cell := fun i j => 0.5 * volga.cell i j * iv.cell i j ^ 2 }

/-- Per-cell total P&L, the sum of the three components (spec 4.3
step 5). -/
def totalPnlGrid (vegaP vannaP volgaP : ExposureGrid) : ExposureGrid :=
  { moneyness := vegaP.moneyness
    expiryDays := vegaP.expiryDays
    cell := fun i j => vegaP.cell i j + vannaP.cell i j + volgaP.cell i j }

/-- Sum of a grid over its row and column index ranges. -/
def gridTotal (g : ExposureGrid) : ℝ :=
  Finset.sum (Finset.range g.moneyness.length) fun i =>
    Finset.sum (Finset.range g.expiryDays.length) fun j => g.cell i j

/-- All per-cell grids of one query, kept together so the decomposition of
spec 4.3 step 5 can be stated cell by cell. -/
structure PnLGrids where
  vega : ExposureGrid
  iv : ExposureGrid
  vanna : ExposureGrid
  volga : ExposureGrid
  vegaPnl : ExposureGrid
  vannaPnl : ExposureGrid
  volgaPnl : ExposureGrid
  totalPnl : ExposureGrid

instance : Inhabited PnLGrids :=
  ⟨⟨default, default, default, default, default, default, default, default⟩⟩

/-- Assemble the per-cell grids of one query from the vega, vanna and
volga grids, the IV model and the scenario's spot change (spec 4.3
steps 3 and 5). -/
def mkGrids (vega vanna volga : ExposureGrid) (m : IVModel)
    (spot_change : ℝ) : PnLGrids :=
  let iv := ivChangeGrid m spot_change vega
  let vegaP := vegaPnlGrid vega iv
  let vannaP := vannaPnlGrid vanna iv spot_change
  let volgaP := volgaPnlGrid volga iv
  ⟨vega, iv, vanna, volga, vegaP, vannaP, volgaP,
    totalPnlGrid vegaP vannaP volgaP⟩

/-- Modelled from the spec: the grid phase of `calculate_pnl` (spec 4.3
steps 1-5) — resolve the scenario (`UnknownScenario` when the label is
absent from the scenario set or the book), guard the tenors
(`InvalidTenor`), derive vanna and volga, and build the per-cell
decomposition.  `pnl_engine.py` is not under the available sources. -/
def computeGrids (book : GridBook) (scen : ScenarioSet) (current_spot : ℝ)
    (label : String) (p : ModelParameters) : Except EngineError PnLGrids :=
  match lookupScen scen label with
  | none => .error .unknownScenario
  | some spot_change =>
    match lookupBook book label with
    | none => .error .unknownScenario
    | some vega =>
      if vega.expiryDays.all (fun d => decide (0 < d)) then
        match GreeksCalculator.estimate_vanna_from_grids ⟨p.volga_scalar⟩
            book scen current_spot with
        | .error e => .error e
        | .ok vanna =>
          match findZero scen with
          | none => .error .insufficientScenarios
          | some z =>
            match lookupBook book z.1 with
            | none => .error .unknownScenario
            | some refG =>
              match GreeksCalculator.estimate_volga ⟨p.volga_scalar⟩ refG with
              | .error e => .error e
              | .ok volga =>
                .ok (mkGrids vega vanna volga (ivModelOf p)
                  ((spot_change : ℝ)))
      else .error .invalidTenor

/-- Modelled from the spec: the `PnLResult` of section 3 — four scalar
totals, the two grouped tables, the total-P&L grid and the IV-change
grid. -/
structure PnLResult where
  vega_pnl : ℝ
  vanna_pnl : ℝ
  volga_pnl : ℝ
  total_pnl : ℝ
  pnl_by_expiry : List ℝ
  pnl_by_moneyness : List ℝ
  total_pnl_grid : ExposureGrid
  iv_changes : ExposureGrid

/-- Assemble a `PnLResult` from the per-cell grids (spec 4.3 step 6):
scalar totals, column sums by expiry, row sums by moneyness. -/
def assembleResult (G : PnLGrids) : PnLResult :=
  { vega_pnl := gridTotal G.vegaPnl
    vanna_pnl := gridTotal G.vannaPnl
    volga_pnl := gridTotal G.volgaPnl
    total_pnl := gridTotal G.totalPnl
    pnl_by_expiry := (List.range G.totalPnl.expiryDays.length).map fun j =>
      Finset.sum (Finset.range G.totalPnl.moneyness.length) fun i =>
        G.totalPnl.cell i j
    pnl_by_moneyness := (List.range G.totalPnl.moneyness.length).map fun i =>
      Finset.sum (Finset.range G.totalPnl.expiryDays.length) fun j =>
        G.totalPnl.cell i j
    total_pnl_grid := G.totalPnl
    iv_changes := G.iv }

/-- Modelled from the spec: `calculate_pnl` (spec 4.3) — the grid phase
followed by aggregation; every failure propagates and no partial result is
produced. -/
def calculate_pnl (book : GridBook) (scen : ScenarioSet) (current_spot : ℝ)
    (label : String) (p : ModelParameters) : Except EngineError PnLResult :=
  match computeGrids book scen current_spot label p with
  | .error e => .error e
  | .ok G => .ok (assembleResult G)

/-- Alignment of the index sets of two grids (section 3 invariant). -/
def gridsAligned (g h : ExposureGrid) : Bool :=
  decide (g.moneyness = h.moneyness) && decide (g.expiryDays = h.expiryDays)

/-- A book is aligned when every grid shares the index sets of the
first. -/
def bookAligned : GridBook → Bool
  | [] => true
  | (_, g) :: rest => rest.all (fun q => gridsAligned q.2 g)

/-- Modelled from the spec: the engine value built by
`create_pnl_engine` — the book, the scenario set and the current spot
reference the Greeks estimator scales by. -/
structure PnLEngine where
  book : GridBook
  scen : ScenarioSet
  currentSpot : ℝ

/-- Modelled from the spec: `create_pnl_engine` (called in
`test_engine.py` and `dashboard.py`); a book whose grids do not all share
identical row and column index sets is rejected with `MisalignedGrid`
before any P&L computation (section 8). -/
def create_pnl_engine (book : GridBook) (scen : ScenarioSet)
    (current_spot : ℝ) : Except EngineError PnLEngine :=
  if bookAligned book then .ok ⟨book, scen, current_spot⟩
  else .error .misalignedGrid

/-- Extract the success value of an `Except`, with a fallback. -/
def getOk (d : α) : Except ε α → α
  | .ok a => a
  | .error _ => d

/-- The single-cell book of the concrete scenario example (spec section 8):
vega 10,000 at moneyness 1.0, expiry 30 days out. -/
def singleCellGrid : ExposureGrid := ⟨[1], [30], fun _ _ => 10000⟩

/-- Number of non-reference scenarios (nonzero spot change). -/
def nonRefCount (scen : ScenarioSet) : ℕ :=
  (scen.filter fun q => decide (q.2 ≠ 0)).length

/-- Number of zero-shock scenarios. -/
def zeroCount (scen : ScenarioSet) : ℕ :=
  (scen.filter fun q => decide (q.2 = 0)).length

/-- A small concrete down-scenario grid used to instantiate the engine
theorems. -/
def wGridDown : ExposureGrid := ⟨[0, 1, 2], [30], fun _ _ => 90⟩

/-- A small concrete reference (zero-shock) grid. -/
def wGridAtm : ExposureGrid := ⟨[0, 1, 2], [30], fun i _ => 100 + i⟩

/-- A small concrete up-scenario grid. -/
def wGridUp : ExposureGrid := ⟨[0, 1, 2], [30], fun _ _ => 120⟩

/-- A concrete three-scenario book. -/
def wBook : GridBook := [("down", wGridDown), ("atm", wGridAtm), ("up", wGridUp)]

/-- The matching concrete scenario set (spot changes ascending, zero-shock
reference in the middle). -/
def wScen : ScenarioSet := [("down", -1), ("atm", 0), ("up", 1)]

/-- A concrete parameter record. -/
def wParams : ModelParameters := ⟨-3, 0, 1, 1, 30⟩

/-- The per-cell grids the engine computes on the concrete book for the
down scenario. -/
def wGridsDown : PnLGrids := getOk default (computeGrids wBook wScen 100 "down" wParams)

/-- The per-cell grids the engine computes on the concrete book for the
zero-shock scenario. -/
def wGridsAtm : PnLGrids := getOk default (computeGrids wBook wScen 100 "atm" wParams)

/-- The result the engine computes on the concrete book for the zero-shock
scenario. -/
def wResultAtm : PnLResult :=
  getOk (assembleResult default) (calculate_pnl wBook wScen 100 "atm" wParams)

/-- The vanna grid the Greeks estimator computes on the concrete book. -/
def wVanna : ExposureGrid :=
  getOk default
    (GreeksCalculator.estimate_vanna_from_grids ⟨1⟩ wBook wScen 100)

/-- A grid misaligned with `wGridAtm` (different moneyness index set). -/
def wBadGrid : ExposureGrid := ⟨[0, 1], [30], fun _ _ => 100⟩

/-- A book whose two grids have different moneyness index sets. -/
def wBadBook : GridBook := [("atm", wGridAtm), ("up", wBadGrid)]

end

section Theorems

/-- The skew multiplier is the identity when `skew_factor = 0`. -/
theorem skewMultiplier_of_zero (m : IVModel) (h : m.skew_factor = 0)
    (spot mny : ℝ) : m.skewMultiplier spot mny = 1 := by
  rw [IVModel.skewMultiplier, h]; ring

/-- C1: at the reference tenor the term adjustment is 1 for any
term-structure slope, so `estimate_atm_iv_change` returns exactly
`spot_vol_beta * spot_change * 100`. -/
theorem C1_reference_tenor_fixed_point (m : IVModel) (spot_change : ℝ)
    (h : 0 < m.reference_tenor_days) :
    m.estimate_atm_iv_change spot_change m.reference_tenor_days =
      .ok (m.spot_vol_beta * spot_change * 100) := by
  rw [IVModel.estimate_atm_iv_change, if_neg (not_le.2 h), IVModel.atmRaw,
    IVModel.term_adjustment, div_self (ne_of_gt h), Real.one_rpow]
  exact congrArg Except.ok (by ring)

theorem C1_witness :
    (0 : ℝ) < (IVModel.mk (-3) 1 1 30).reference_tenor_days ∧
      (IVModel.mk (-3) 1 1 30).estimate_atm_iv_change (-0.05) 30 =
        .ok ((-3) * (-0.05) * 100) :=
  ⟨by norm_num, C1_reference_tenor_fixed_point (IVModel.mk (-3) 1 1 30)
    (-0.05) (by norm_num)⟩

/-- C2: with `skew_factor = 0` the IV change is the same for every
moneyness and equals the ATM IV change, at every spot change and tenor. -/
theorem C2_parallel_shift (m : IVModel) (h : m.skew_factor = 0) :
    (∀ spot m1 m2 dte : ℝ,
      m.estimate_iv_change spot m1 dte = m.estimate_iv_change spot m2 dte) ∧
    (∀ spot mny dte : ℝ,
      m.estimate_iv_change spot mny dte = m.estimate_atm_iv_change spot dte) := by
  have key : ∀ spot mny dte : ℝ, m.ivRaw spot mny dte = m.atmRaw spot dte := by
    intro spot mny dte
    rw [IVModel.ivRaw, skewMultiplier_of_zero m h, mul_one]
  constructor
  · intro spot m1 m2 dte
    rw [IVModel.estimate_iv_change, IVModel.estimate_iv_change, key, key]
  · intro spot mny dte
    rw [IVModel.estimate_iv_change, IVModel.estimate_atm_iv_change, key]

theorem C2_witness :
    (IVModel.mk (-3) 0 1 30).skew_factor = 0 ∧
      (IVModel.mk (-3) 0 1 30).estimate_iv_change (-0.05) 0.9 30 =
        (IVModel.mk (-3) 0 1 30).estimate_atm_iv_change (-0.05) 30 :=
  ⟨rfl, (C2_parallel_shift (IVModel.mk (-3) 0 1 30) rfl).2 (-0.05) 0.9 30⟩

/-- C3: the concrete scenario example — model
`(spot_vol_beta, skew_factor, term_structure_slope, reference_tenor_days)
= (-3, 0, 1, 30)`, spot change −5%: the ATM IV change at 30 days is
exactly 15 vol points, and the vega P&L of the single-cell book (vega
10,000 at moneyness 1.0, 30 days out) is exactly 150,000. -/
theorem C3_concrete_scenario :
    IVModel.estimate_atm_iv_change ⟨-3, 0, 1, 30⟩ (-0.05) 30 = .ok 15 ∧
      gridTotal (vegaPnlGrid singleCellGrid
        (ivChangeGrid ⟨-3, 0, 1, 30⟩ (-0.05) singleCellGrid)) = 150000 := by
  have hadj : IVModel.term_adjustment ⟨-3, 0, 1, 30⟩ 30 = 1 := by
    rw [IVModel.term_adjustment]
    norm_num [Real.one_rpow]
  have hatm : IVModel.atmRaw ⟨-3, 0, 1, 30⟩ (-0.05) 30 = 15 := by
    rw [IVModel.atmRaw, hadj]; norm_num
  constructor
  · rw [IVModel.estimate_atm_iv_change, if_neg (by norm_num : ¬((30:ℝ) ≤ 0)),
      hatm]
  · have hcell :
        (ivChangeGrid ⟨-3, 0, 1, 30⟩ (-0.05) singleCellGrid).cell 0 0 = 15 := by
      show IVModel.ivRaw ⟨-3, 0, 1, 30⟩ (-0.05)
        ((singleCellGrid.moneyness.getD 0 0 : ℚ) : ℝ)
        ((singleCellGrid.expiryDays.getD 0 0 : ℕ) : ℝ) = 15
      rw [IVModel.ivRaw, skewMultiplier_of_zero ⟨-3, 0, 1, 30⟩ rfl, mul_one]
      have hd : ((singleCellGrid.expiryDays.getD 0 0 : ℕ) : ℝ) = 30 := by
        norm_num [singleCellGrid]
      rw [hd, hatm]
    rw [gridTotal]
    have h1 : (vegaPnlGrid singleCellGrid
        (ivChangeGrid ⟨-3, 0, 1, 30⟩ (-0.05) singleCellGrid)).moneyness.length = 1 :=
      rfl
    have h2 : (vegaPnlGrid singleCellGrid
        (ivChangeGrid ⟨-3, 0, 1, 30⟩ (-0.05) singleCellGrid)).expiryDays.length = 1 :=
      rfl
    rw [h1, h2, Finset.sum_range_one, Finset.sum_range_one]
    show singleCellGrid.cell 0 0 *
      (ivChangeGrid ⟨-3, 0, 1, 30⟩ (-0.05) singleCellGrid).cell 0 0 = 150000
    rw [hcell]
    norm_num [singleCellGrid]

/-- The IV change factors as a tenor-free prefactor times the term
adjustment. -/
theorem ivRaw_factor (m : IVModel) (spot mny dte : ℝ) :
    m.ivRaw spot mny dte =
      m.spot_vol_beta * (spot * 100) * m.skewMultiplier spot mny *
        m.term_adjustment dte := by
  rw [IVModel.ivRaw, IVModel.atmRaw]; ring

/-- C5 counterexample: as stated the claim fails — with
`term_structure_slope = 2 > 1` and spot change −5% ≠ 0, a model with
`spot_vol_beta = 0` (first conjunct block) or a moneyness at which the skew
multiplier vanishes (second block) returns IV change 0 at 30 and at 60
days, so `|estimate_iv_change|` does not strictly decrease beyond the
30-day reference tenor. -/
theorem C5_counterexample :
    ((1:ℝ) < (IVModel.mk 0 0 2 30).term_structure_slope ∧ (-0.05:ℝ) ≠ 0 ∧
      IVModel.estimate_iv_change ⟨0, 0, 2, 30⟩ (-0.05) 1 60 = .ok 0 ∧
      IVModel.estimate_iv_change ⟨0, 0, 2, 30⟩ (-0.05) 1 30 = .ok 0 ∧
      ¬(|(0:ℝ)| < |(0:ℝ)|)) ∧
    ((1:ℝ) < (IVModel.mk (-3) 2 2 30).term_structure_slope ∧
      IVModel.skewMultiplier ⟨-3, 2, 2, 30⟩ (-0.05) 0.5 = 0 ∧
      IVModel.estimate_iv_change ⟨-3, 2, 2, 30⟩ (-0.05) 0.5 60 = .ok 0 ∧
      IVModel.estimate_iv_change ⟨-3, 2, 2, 30⟩ (-0.05) 0.5 30 = .ok 0 ∧
      ¬(|(0:ℝ)| < |(0:ℝ)|)) := by
  have hmul : IVModel.skewMultiplier ⟨-3, 2, 2, 30⟩ (-0.05) 0.5 = 0 := by
    rw [IVModel.skewMultiplier, Real.sign_of_neg (by norm_num : (-0.05:ℝ) < 0)]
    norm_num
  have hz1 : ∀ d : ℝ, ¬ d ≤ 0 →
      IVModel.estimate_iv_change ⟨0, 0, 2, 30⟩ (-0.05) 1 d = .ok 0 := by
    intro d hd
    rw [IVModel.estimate_iv_change, if_neg hd]
    exact congrArg Except.ok (by rw [ivRaw_factor]; norm_num)
  have hz2 : ∀ d : ℝ, ¬ d ≤ 0 →
      IVModel.estimate_iv_change ⟨-3, 2, 2, 30⟩ (-0.05) 0.5 d = .ok 0 := by
    intro d hd
    rw [IVModel.estimate_iv_change, if_neg hd]
    exact congrArg Except.ok (by rw [ivRaw_factor, hmul]; ring)
  refine ⟨⟨by norm_num, by norm_num, hz1 60 (by norm_num), hz1 30 (by norm_num),
    by norm_num⟩,
    ⟨by norm_num, hmul, hz2 60 (by norm_num), hz2 30 (by norm_num), by norm_num⟩⟩

/-- C5 (amended): for `term_structure_slope > 1`, nonzero spot change,
nonzero `spot_vol_beta`, a moneyness at which the skew multiplier is
nonzero, and a positive reference tenor, `|estimate_iv_change|` strictly
decreases as days-to-expiry increases beyond the reference tenor. -/
theorem C5_term_structure_monotonic (m : IVModel) (spot mny d1 d2 : ℝ)
    (hslope : 1 < m.term_structure_slope) (hspot : spot ≠ 0)
    (hbeta : m.spot_vol_beta ≠ 0) (hmult : m.skewMultiplier spot mny ≠ 0)
    (href : 0 < m.reference_tenor_days)
    (hd1 : m.reference_tenor_days ≤ d1) (hd12 : d1 < d2) :
    m.estimate_iv_change spot mny d1 = .ok (m.ivRaw spot mny d1) ∧
    m.estimate_iv_change spot mny d2 = .ok (m.ivRaw spot mny d2) ∧
    |m.ivRaw spot mny d2| < |m.ivRaw spot mny d1| := by
  have hd1p : (0:ℝ) < d1 := lt_of_lt_of_le href hd1
  have hd2p : (0:ℝ) < d2 := lt_trans hd1p hd12
  refine ⟨by rw [IVModel.estimate_iv_change, if_neg (not_le.2 hd1p)],
    by rw [IVModel.estimate_iv_change, if_neg (not_le.2 hd2p)], ?_⟩
  have hA : m.spot_vol_beta * (spot * 100) * m.skewMultiplier spot mny ≠ 0 :=
    mul_ne_zero (mul_ne_zero hbeta (mul_ne_zero hspot (by norm_num))) hmult
  have hadj : ∀ d : ℝ, 0 < d → 0 < m.term_adjustment d := by
    intro d hd
    exact Real.rpow_pos_of_pos (div_pos href hd) _
  have hlt : m.term_adjustment d2 < m.term_adjustment d1 := by
    rw [IVModel.term_adjustment, IVModel.term_adjustment]
    exact Real.rpow_lt_rpow (le_of_lt (div_pos href hd2p))
      (div_lt_div_of_pos_left href hd1p hd12)
      (lt_trans one_pos hslope)
  rw [ivRaw_factor, ivRaw_factor,
    abs_mul (m.spot_vol_beta * (spot * 100) * m.skewMultiplier spot mny)
      (m.term_adjustment d2),
    abs_mul (m.spot_vol_beta * (spot * 100) * m.skewMultiplier spot mny)
      (m.term_adjustment d1),
    abs_of_pos (hadj d1 hd1p), abs_of_pos (hadj d2 hd2p)]
  exact mul_lt_mul_of_pos_left hlt (abs_pos.2 hA)

theorem C5_witness :
    (1:ℝ) < (IVModel.mk (-3) 1 2 30).term_structure_slope ∧
    (-0.05:ℝ) ≠ 0 ∧ (IVModel.mk (-3) 1 2 30).spot_vol_beta ≠ 0 ∧
    IVModel.skewMultiplier (IVModel.mk (-3) 1 2 30) (-0.05) 0.9 ≠ 0 ∧
    (0:ℝ) < (IVModel.mk (-3) 1 2 30).reference_tenor_days ∧
    (IVModel.mk (-3) 1 2 30).reference_tenor_days ≤ 30 ∧ (30:ℝ) < 60 ∧
    |IVModel.ivRaw (IVModel.mk (-3) 1 2 30) (-0.05) 0.9 60| <
      |IVModel.ivRaw (IVModel.mk (-3) 1 2 30) (-0.05) 0.9 30| := by
  have hmult : IVModel.skewMultiplier (IVModel.mk (-3) 1 2 30) (-0.05) 0.9 ≠ 0 := by
    rw [IVModel.skewMultiplier, Real.sign_of_neg (by norm_num : (-0.05:ℝ) < 0)]
    norm_num
  exact ⟨by norm_num, by norm_num, by norm_num, hmult, by norm_num, by norm_num,
    by norm_num,
    (C5_term_structure_monotonic (IVModel.mk (-3) 1 2 30) (-0.05) 0.9 30 60
      (by norm_num) (by norm_num) (by norm_num) hmult (by norm_num)
      (by norm_num) (by norm_num)).2.2⟩

/-- Inserting into a scenario list adds one to its length. -/
theorem length_insertScen (p : String × ℚ) (l : ScenarioSet) :
    (insertScen p l).length = l.length + 1 := by
  induction l with
  | nil => rfl
  | cons q rest ih =>
    rw [insertScen]
    by_cases h : p.2 ≤ q.2
    · rw [if_pos h]; rfl
    · rw [if_neg h, List.length_cons, ih, List.length_cons]

/-- Sorting a scenario list preserves its length. -/
theorem length_sortScen (l : ScenarioSet) :
    (sortScen l).length = l.length := by
  induction l with
  | nil => rfl
  | cons q rest ih => rw [sortScen, length_insertScen, ih, List.length_cons]

/-- The non-reference and zero-shock scenario counts partition the
list. -/
theorem nonRef_add_zero (l : ScenarioSet) :
    nonRefCount l + zeroCount l = l.length := by
  induction l with
  | nil => rfl
  | cons q rest ih =>
    by_cases h : q.2 = 0
    · have h1 : nonRefCount (q :: rest) = nonRefCount rest := by
        simp [nonRefCount, List.filter_cons, h]
      have h2 : zeroCount (q :: rest) = zeroCount rest + 1 := by
        simp [zeroCount, List.filter_cons, h]
      rw [h1, h2, List.length_cons]; omega
    · have h1 : nonRefCount (q :: rest) = nonRefCount rest + 1 := by
        simp [nonRefCount, List.filter_cons, h]
      have h2 : zeroCount (q :: rest) = zeroCount rest := by
        simp [zeroCount, List.filter_cons, h]
      rw [h1, h2, List.length_cons]; omega

/-- A scenario list of length at most 2 never yields a bracket around the
zero-shock reference. -/
theorem bracket_none_of_short (l : ScenarioSet) (hlen : l.length ≤ 2) :
    bracketScenarios l = none := by
  rcases l with _ | ⟨a, _ | ⟨b, _ | ⟨c, t⟩⟩⟩
  · rfl
  · by_cases h : a.2 = 0 <;> simp [bracketScenarios, findZeroIdx, h]
  · by_cases ha : a.2 = 0
    · simp [bracketScenarios, findZeroIdx, ha]
    · by_cases hb : b.2 = 0 <;> simp [bracketScenarios, findZeroIdx, ha, hb]
  · exfalso
    simp only [List.length_cons] at hlen
    omega

/-- The scenarios of a bracket are members of the list. -/
theorem bracket_mem (l : ScenarioSet) (d u : String × ℚ)
    (h : bracketScenarios l = some (d, u)) : d ∈ l ∧ u ∈ l := by
  cases hidx : findZeroIdx l with
  | none =>
    simp only [bracketScenarios, hidx] at h
    exact Option.noConfusion h
  | some i =>
    simp only [bracketScenarios, hidx] at h
    have memOf : ∀ (n : ℕ) (x : String × ℚ), l[n]? = some x → x ∈ l :=
      fun n x hx => List.getElem?_mem hx
    have belowOf : ∀ x, (if i = 0 then none else l[i - 1]?) = some x → x ∈ l := by
      intro x hx
      by_cases hi : i = 0
      · rw [if_pos hi] at hx; cases hx
      · rw [if_neg hi] at hx; exact memOf _ _ hx
    cases hb : (if i = 0 then none else l[i - 1]?) with
    | some dd =>
      cases ha : l[i + 1]? with
      | some uu =>
        rw [hb, ha] at h
        simp only [Option.some.injEq, Prod.mk.injEq] at h
        obtain ⟨rfl, rfl⟩ := h
        exact ⟨belowOf _ hb, memOf _ _ ha⟩
      | none =>
        rw [hb, ha] at h
        cases hc : (if i < 2 then none else l[i - 2]?) with
        | some d2 =>
          rw [hc] at h
          simp only [Option.some.injEq, Prod.mk.injEq] at h
          obtain ⟨rfl, rfl⟩ := h
          refine ⟨?_, belowOf _ hb⟩
          by_cases hi2 : i < 2
          · rw [if_pos hi2] at hc; cases hc
          · rw [if_neg hi2] at hc; exact memOf _ _ hc
        | none => rw [hc] at h; cases h
    | none =>
      cases ha : l[i + 1]? with
      | some uu =>
        rw [hb, ha] at h
        cases hc : l[i + 2]? with
        | some u2 =>
          rw [hc] at h
          simp only [Option.some.injEq, Prod.mk.injEq] at h
          obtain ⟨rfl, rfl⟩ := h
          exact ⟨memOf _ _ ha, memOf _ _ hc⟩
        | none => rw [hc] at h; cases h
      | none => rw [hb, ha] at h; cases h

/-- Membership in an insertion is membership in the parts. -/
theorem mem_insertScen (p q : String × ℚ) (l : ScenarioSet) :
    q ∈ insertScen p l ↔ q = p ∨ q ∈ l := by
  induction l with
  | nil => simp [insertScen]
  | cons a rest ih =>
    rw [insertScen]
    by_cases h : p.2 ≤ a.2
    · rw [if_pos h]
      simp [List.mem_cons]
    · rw [if_neg h]
      simp only [List.mem_cons, ih]
      tauto

/-- Sorting preserves the members of a scenario list. -/
theorem mem_sortScen (q : String × ℚ) (l : ScenarioSet) :
    q ∈ sortScen l ↔ q ∈ l := by
  induction l with
  | nil => simp [sortScen]
  | cons a rest ih =>
    rw [sortScen, mem_insertScen]
    simp only [List.mem_cons, ih]

/-- A member's label always resolves in the scenario set. -/
theorem lookupScen_isSome_of_mem (scen : ScenarioSet) (q : String × ℚ)
    (hq : q ∈ scen) : (lookupScen scen q.1).isSome = true := by
  induction scen with
  | nil => cases hq
  | cons a rest ih =>
    rw [lookupScen]
    by_cases h : q.1 = a.1
    · rw [if_pos h]; rfl
    · rw [if_neg h]
      rcases List.mem_cons.1 hq with rfl | hmem
      · exact absurd rfl h
      · exact ih hmem

/-- The zero-shock entry found in a scenario list is one of its
members. -/
theorem findZero_mem (scen : ScenarioSet) (z : String × ℚ)
    (h : findZero scen = some z) : z ∈ scen := by
  induction scen with
  | nil => cases h
  | cons a rest ih =>
    rw [findZero] at h
    by_cases ha : a.2 = 0
    · rw [if_pos ha] at h
      exact List.mem_cons.2 (Or.inl (Option.some.inj h).symm)
    · rw [if_neg ha] at h
      exact List.mem_cons.2 (Or.inr (ih h))

/-- The volga estimator fails only with `InsufficientGridResolution`. -/
theorem estimate_volga_error (c : GreeksCalculator) (g : ExposureGrid)
    (e : EngineError) (h : c.estimate_volga g = .error e) :
    e = .insufficientGridResolution := by
  rw [GreeksCalculator.estimate_volga] at h
  by_cases hlen : g.moneyness.length < 3
  · rw [if_pos hlen] at h
    exact (Except.error.inj h).symm
  · rw [if_neg hlen] at h
    exact Except.noConfusion h

/-- When scenario labels and book labels coincide, the vanna estimator
fails only with `InsufficientScenarios`. -/
theorem estimate_vanna_error (c : GreeksCalculator) (book : GridBook)
    (scen : ScenarioSet) (cs : ℝ)
    (hkeys : ∀ l, (lookupScen scen l).isSome = (lookupBook book l).isSome)
    (e : EngineError)
    (h : c.estimate_vanna_from_grids book scen cs = .error e) :
    e = .insufficientScenarios := by
  cases hbr : bracketScenarios (sortScen scen) with
  | none =>
    rw [GreeksCalculator.estimate_vanna_from_grids] at h
    rw [hbr] at h
    exact (Except.error.inj h).symm
  | some du =>
    obtain ⟨down, up⟩ := du
    obtain ⟨hd, hu⟩ := bracket_mem _ _ _ hbr
    have hd2 : (lookupBook book down.1).isSome = true := by
      rw [← hkeys down.1]
      exact lookupScen_isSome_of_mem _ _ ((mem_sortScen _ _).1 hd)
    have hu2 : (lookupBook book up.1).isSome = true := by
      rw [← hkeys up.1]
      exact lookupScen_isSome_of_mem _ _ ((mem_sortScen _ _).1 hu)
    obtain ⟨gd, hgd⟩ := Option.isSome_iff_exists.1 hd2
    obtain ⟨gu, hgu⟩ := Option.isSome_iff_exists.1 hu2
    have hval : c.estimate_vanna_from_grids book scen cs =
        .ok (vannaGridOf gd gu down.2 up.2 cs) := by
      simp only [GreeksCalculator.estimate_vanna_from_grids, hbr, hgd, hgu]
    rw [hval] at h
    exact Except.noConfusion h

/-- C7: the vanna estimator uses the two scenarios adjacent to the
zero-shock reference in the spot-change ordering, and every cell of its
result equals `(vega_up - vega_down) / (spot_up - spot_down) *
current_spot`; with fewer than two non-reference scenarios (and at most
one zero-shock entry, the distinguished reference) it fails with
`InsufficientScenarios`. -/
theorem C7_vanna_from_grids (c : GreeksCalculator) (book : GridBook)
    (scen : ScenarioSet) (cs : ℝ) :
    (nonRefCount scen < 2 → zeroCount scen ≤ 1 →
      c.estimate_vanna_from_grids book scen cs =
        .error .insufficientScenarios) ∧
    (∀ (i : ℕ) (down up : String × ℚ) (gd gu g : ExposureGrid),
      findZeroIdx (sortScen scen) = some i → i ≠ 0 →
      (sortScen scen)[i - 1]? = some down →
      (sortScen scen)[i + 1]? = some up →
      lookupBook book down.1 = some gd → lookupBook book up.1 = some gu →
      c.estimate_vanna_from_grids book scen cs = .ok g →
      ∀ r col : ℕ, g.cell r col =
        (gu.cell r col - gd.cell r col) / ((up.2 : ℝ) - (down.2 : ℝ)) * cs) := by
  constructor
  · intro h1 h2
    have hlen : (sortScen scen).length ≤ 2 := by
      rw [length_sortScen, ← nonRef_add_zero]
      omega
    rw [GreeksCalculator.estimate_vanna_from_grids,
      bracket_none_of_short _ hlen]
  · intro i down up gd gu g hidx hi0 hdown hup hgd hgu hg r col
    have hbr : bracketScenarios (sortScen scen) = some (down, up) := by
      simp only [bracketScenarios, hidx, if_neg hi0, hdown, hup]
    have hval : c.estimate_vanna_from_grids book scen cs =
        .ok (vannaGridOf gd gu down.2 up.2 cs) := by
      simp only [GreeksCalculator.estimate_vanna_from_grids, hbr, hgd, hgu]
    rw [hval] at hg
    rw [← Except.ok.inj hg]
    rfl

theorem C7_witness :
    findZeroIdx (sortScen wScen) = some 1 ∧ (1 : ℕ) ≠ 0 ∧
    (sortScen wScen)[0]? = some (("down", -1) : String × ℚ) ∧
    (sortScen wScen)[2]? = some (("up", 1) : String × ℚ) ∧
    lookupBook wBook "down" = some wGridDown ∧
    lookupBook wBook "up" = some wGridUp ∧
    GreeksCalculator.estimate_vanna_from_grids ⟨1⟩ wBook wScen 100 =
      .ok wVanna ∧
    wVanna.cell 0 0 =
      (wGridUp.cell 0 0 - wGridDown.cell 0 0) / (((1 : ℚ) : ℝ) - ((-1 : ℚ) : ℝ)) * 100 :=
  ⟨rfl, one_ne_zero, rfl, rfl, rfl, rfl, rfl,
    (C7_vanna_from_grids ⟨1⟩ wBook wScen 100).2 1 (("down", -1) : String × ℚ)
      (("up", 1) : String × ℚ) wGridDown wGridUp wVanna rfl one_ne_zero rfl
      rfl rfl rfl rfl 0 0⟩

/-- An aligned book makes any two of its grids share both index sets. -/
theorem bookAligned_pairwise (book : GridBook)
    (h : bookAligned book = true) :
    ∀ p ∈ book, ∀ q ∈ book,
      p.2.moneyness = q.2.moneyness ∧ p.2.expiryDays = q.2.expiryDays := by
  cases book with
  | nil => intro p hp; cases hp
  | cons a rest =>
    rw [bookAligned, List.all_eq_true] at h
    have key : ∀ p ∈ a :: rest,
        p.2.moneyness = a.2.moneyness ∧ p.2.expiryDays = a.2.expiryDays := by
      intro p hp
      rcases List.mem_cons.1 hp with rfl | hmem
      · exact ⟨rfl, rfl⟩
      · have := h p hmem
        rw [gridsAligned, Bool.and_eq_true, decide_eq_true_eq,
          decide_eq_true_eq] at this
        exact this
    intro p hp q hq
    obtain ⟨hp1, hp2⟩ := key p hp
    obtain ⟨hq1, hq2⟩ := key q hq
    exact ⟨hp1.trans hq1.symm, hp2.trans hq2.symm⟩

/-- C9: a book in which two scenario grids carry different moneyness index
sets is rejected with `MisalignedGrid` at engine construction, before any
P&L computation; conversely a successfully constructed engine only ever
holds a book whose grids all share identical row and column index sets. -/
theorem C9_misaligned_rejection (book : GridBook) (scen : ScenarioSet)
    (cs : ℝ) :
    (∀ p q : String × ExposureGrid, p ∈ book → q ∈ book →
      p.2.moneyness ≠ q.2.moneyness →
      create_pnl_engine book scen cs = .error .misalignedGrid) ∧
    (∀ eng, create_pnl_engine book scen cs = .ok eng →
      ∀ p ∈ book, ∀ q ∈ book,
        p.2.moneyness = q.2.moneyness ∧ p.2.expiryDays = q.2.expiryDays) := by
  constructor
  · intro p q hp hq hne
    rw [create_pnl_engine]
    by_cases hal : bookAligned book = true
    · exact absurd (bookAligned_pairwise book hal p hp q hq).1 hne
    · rw [if_neg hal]
  · intro eng heng
    rw [create_pnl_engine] at heng
    by_cases hal : bookAligned book = true
    · exact bookAligned_pairwise book hal
    · rw [if_neg hal] at heng
      exact Except.noConfusion heng

theorem C9_witness :
    ("atm", wGridAtm) ∈ wBadBook ∧ ("up", wBadGrid) ∈ wBadBook ∧
    wGridAtm.moneyness ≠ wBadGrid.moneyness ∧
    create_pnl_engine wBadBook wScen 100 = .error .misalignedGrid :=
  ⟨List.mem_cons_self _ _, List.mem_cons_of_mem _ (List.mem_cons_self _ _),
    by decide,
    (C9_misaligned_rejection wBadBook wScen 100).1 ("atm", wGridAtm)
      ("up", wBadGrid) (List.mem_cons_self _ _)
      (List.mem_cons_of_mem _ (List.mem_cons_self _ _)) (by decide)⟩

/-- C10 counterexample: the parameter record consumed by each query (the
five-key record built in `dashboard.py`) is not determined by the four
fields `spot_vol_beta`, `skew_factor`, `term_structure_slope`,
`reference_tenor_days`: two records agree on all four yet differ, because
`volga_scalar` is a fifth independent field. -/
theorem C10_counterexample :
    (ModelParameters.mk (-3) 0 1 0 30).spot_vol_beta =
        (ModelParameters.mk (-3) 0 1 1 30).spot_vol_beta ∧
    (ModelParameters.mk (-3) 0 1 0 30).skew_factor =
        (ModelParameters.mk (-3) 0 1 1 30).skew_factor ∧
    (ModelParameters.mk (-3) 0 1 0 30).term_structure_slope =
        (ModelParameters.mk (-3) 0 1 1 30).term_structure_slope ∧
    (ModelParameters.mk (-3) 0 1 0 30).reference_tenor_days =
        (ModelParameters.mk (-3) 0 1 1 30).reference_tenor_days ∧
    ModelParameters.mk (-3) 0 1 0 30 ≠ ModelParameters.mk (-3) 0 1 1 30 := by
  refine ⟨rfl, rfl, rfl, rfl, fun h => ?_⟩
  have h5 : (0 : ℝ) = 1 := congrArg ModelParameters.volga_scalar h
  norm_num at h5

/-- C10 (amended): the parameter record consumed by each query is an
immutable record with exactly five real-valued fields — the four model
fields plus `volga_scalar` — and `volga_scalar` is the scalar supplied to
the volga-grid recomputation on every query. -/
theorem C10_model_parameters :
    (∀ p q : ModelParameters,
      p = q ↔ p.spot_vol_beta = q.spot_vol_beta ∧
        p.skew_factor = q.skew_factor ∧
        p.term_structure_slope = q.term_structure_slope ∧
        p.reference_tenor_days = q.reference_tenor_days ∧
        p.volga_scalar = q.volga_scalar) ∧
    (∀ (p : ModelParameters) (g : ExposureGrid),
      ¬ g.moneyness.length < 3 →
      GreeksCalculator.estimate_volga ⟨p.volga_scalar⟩ g =
        .ok (volgaGridOf p.volga_scalar g)) := by
  constructor
  · intro p q
    constructor
    · intro h; subst h; exact ⟨rfl, rfl, rfl, rfl, rfl⟩
    · intro ⟨h1, h2, h3, h4, h5⟩
      cases p; cases q
      simp_all
  · intro p g hlen
    rw [GreeksCalculator.estimate_volga, if_neg hlen]

theorem C10_witness :
    ¬ wGridAtm.moneyness.length < 3 ∧
    GreeksCalculator.estimate_volga ⟨wParams.volga_scalar⟩ wGridAtm =
      .ok (volgaGridOf wParams.volga_scalar wGridAtm) :=
  ⟨by decide, C10_model_parameters.2 wParams wGridAtm (by decide)⟩

/-- A successful grid computation resolves the scenario's spot change and
produces exactly the per-cell grids of `mkGrids`. -/
theorem computeGrids_ok_shape (book : GridBook) (scen : ScenarioSet)
    (cs : ℝ) (label : String) (p : ModelParameters) (G : PnLGrids)
    (hG : computeGrids book scen cs label p = .ok G) :
    ∃ (spot : ℚ) (vega vanna volga : ExposureGrid),
      lookupScen scen label = some spot ∧
      G = mkGrids vega vanna volga (ivModelOf p) ((spot : ℝ)) := by
  cases hs : lookupScen scen label with
  | none =>
    simp only [computeGrids, hs] at hG
    exact Except.noConfusion hG
  | some spot =>
    simp only [computeGrids, hs] at hG
    cases hb : lookupBook book label with
    | none =>
      simp only [hb] at hG
      exact Except.noConfusion hG
    | some vega =>
      simp only [hb] at hG
      by_cases ht : vega.expiryDays.all (fun d => decide (0 < d)) = true
      · rw [if_pos ht] at hG
        cases hv : GreeksCalculator.estimate_vanna_from_grids
            ⟨p.volga_scalar⟩ book scen cs with
        | error e =>
          simp only [hv] at hG
          exact Except.noConfusion hG
        | ok vanna =>
          simp only [hv] at hG
          cases hz : findZero scen with
          | none =>
            simp only [hz] at hG
            exact Except.noConfusion hG
          | some z =>
            simp only [hz] at hG
            cases hr : lookupBook book z.1 with
            | none =>
              simp only [hr] at hG
              exact Except.noConfusion hG
            | some refG =>
              simp only [hr] at hG
              cases hvo : GreeksCalculator.estimate_volga ⟨p.volga_scalar⟩
                  refG with
              | error e =>
                simp only [hvo] at hG
                exact Except.noConfusion hG
              | ok volga =>
                simp only [hvo] at hG
                exact ⟨spot, vega, vanna, volga, rfl, (Except.ok.inj hG).symm⟩
      · rw [if_neg ht] at hG
        exact Except.noConfusion hG

/-- C4: for every cell and every scenario, the engine's per-cell total
P&L is the sum of the vega, vanna and volga components, which are
`vega * iv_change`, `vanna * spot_change * iv_change` and
`0.5 * volga * iv_change ** 2`, and the total-P&L grid in the returned
result carries exactly those sums. -/
theorem C4_decomposition (book : GridBook) (scen : ScenarioSet) (cs : ℝ)
    (label : String) (p : ModelParameters) (spot : ℚ) (G : PnLGrids)
    (hspot : lookupScen scen label = some spot)
    (hG : computeGrids book scen cs label p = .ok G) :
    (∀ i j : ℕ,
      G.totalPnl.cell i j =
        G.vegaPnl.cell i j + G.vannaPnl.cell i j + G.volgaPnl.cell i j ∧
      G.vegaPnl.cell i j = G.vega.cell i j * G.iv.cell i j ∧
      G.vannaPnl.cell i j = G.vanna.cell i j * ((spot : ℝ)) * G.iv.cell i j ∧
      G.volgaPnl.cell i j = 0.5 * G.volga.cell i j * G.iv.cell i j ^ 2) ∧
    (∀ r, calculate_pnl book scen cs label p = .ok r →
      ∀ i j : ℕ, r.total_pnl_grid.cell i j =
        G.vegaPnl.cell i j + G.vannaPnl.cell i j + G.volgaPnl.cell i j) := by
  obtain ⟨spot0, vega, vanna, volga, hs0, hshape⟩ :=
    computeGrids_ok_shape book scen cs label p G hG
  obtain rfl : spot0 = spot := Option.some.inj (hs0.symm.trans hspot)
  subst hshape
  constructor
  · intro i j
    exact ⟨rfl, rfl, rfl, rfl⟩
  · intro r hr i j
    have hcalc : calculate_pnl book scen cs label p =
        .ok (assembleResult
          (mkGrids vega vanna volga (ivModelOf p) ((spot0 : ℝ)))) := by
      simp only [calculate_pnl, hG]
    rw [hcalc] at hr
    rw [← Except.ok.inj hr]
    rfl

theorem C4_witness :
    lookupScen wScen "down" = some (-1) ∧
    computeGrids wBook wScen 100 "down" wParams = .ok wGridsDown ∧
    wGridsDown.totalPnl.cell 0 0 =
      wGridsDown.vegaPnl.cell 0 0 + wGridsDown.vannaPnl.cell 0 0 +
        wGridsDown.volgaPnl.cell 0 0 :=
  ⟨rfl, rfl,
    ((C4_decomposition wBook wScen 100 "down" wParams (-1) wGridsDown rfl
      rfl).1 0 0).1⟩

/-- C6: for the zero-shock scenario every cell of the IV-change grid, the
vanna-P&L grid, the volga-P&L grid and the total-P&L grid is zero, and
the returned total P&L is zero, for every choice of parameters. -/
theorem C6_zero_shock (book : GridBook) (scen : ScenarioSet) (cs : ℝ)
    (label : String) (p : ModelParameters)
    (h0 : lookupScen scen label = some 0) :
    (∀ G, computeGrids book scen cs label p = .ok G →
      (∀ i j : ℕ, G.iv.cell i j = 0) ∧
      (∀ i j : ℕ, G.vannaPnl.cell i j = 0) ∧
      (∀ i j : ℕ, G.volgaPnl.cell i j = 0) ∧
      (∀ i j : ℕ, G.totalPnl.cell i j = 0)) ∧
    (∀ r, calculate_pnl book scen cs label p = .ok r → r.total_pnl = 0) := by
  have hivzero : ∀ (m : IVModel) (g : ExposureGrid) (i j : ℕ),
      (ivChangeGrid m ((0 : ℚ) : ℝ) g).cell i j = 0 := by
    intro m g i j
    show m.ivRaw ((0 : ℚ) : ℝ) _ _ = 0
    rw [IVModel.ivRaw, IVModel.atmRaw]
    push_cast
    ring
  have main : ∀ G, computeGrids book scen cs label p = .ok G →
      (∀ i j : ℕ, G.iv.cell i j = 0) ∧
      (∀ i j : ℕ, G.vannaPnl.cell i j = 0) ∧
      (∀ i j : ℕ, G.volgaPnl.cell i j = 0) ∧
      (∀ i j : ℕ, G.totalPnl.cell i j = 0) := by
    intro G hG
    obtain ⟨spot0, vega, vanna, volga, hs0, hshape⟩ :=
      computeGrids_ok_shape book scen cs label p G hG
    obtain rfl : spot0 = 0 := Option.some.inj (hs0.symm.trans h0)
    subst hshape
    refine ⟨fun i j => hivzero _ _ i j, fun i j => ?_, fun i j => ?_,
      fun i j => ?_⟩
    · show vanna.cell i j * ((0 : ℚ) : ℝ) *
        (ivChangeGrid (ivModelOf p) ((0 : ℚ) : ℝ) vega).cell i j = 0
      push_cast
      ring
    · show 0.5 * volga.cell i j *
        ((ivChangeGrid (ivModelOf p) ((0 : ℚ) : ℝ) vega).cell i j) ^ 2 = 0
      rw [hivzero]
      ring
    · show vega.cell i j *
          (ivChangeGrid (ivModelOf p) ((0 : ℚ) : ℝ) vega).cell i j +
        vanna.cell i j * ((0 : ℚ) : ℝ) *
          (ivChangeGrid (ivModelOf p) ((0 : ℚ) : ℝ) vega).cell i j +
        0.5 * volga.cell i j *
          ((ivChangeGrid (ivModelOf p) ((0 : ℚ) : ℝ) vega).cell i j) ^ 2 = 0
      simp only [hivzero]
      push_cast
      ring
  refine ⟨main, ?_⟩
  intro r hr
  cases hcg : computeGrids book scen cs label p with
  | error e =>
    have : calculate_pnl book scen cs label p = .error e := by
      simp only [calculate_pnl, hcg]
    rw [this] at hr
    exact Except.noConfusion hr
  | ok G =>
    have hcalc : calculate_pnl book scen cs label p =
        .ok (assembleResult G) := by
      simp only [calculate_pnl, hcg]
    rw [hcalc] at hr
    rw [← Except.ok.inj hr]
    show gridTotal G.totalPnl = 0
    obtain ⟨_, _, _, zeroTotal⟩ := main G hcg
    rw [gridTotal]
    exact Finset.sum_eq_zero fun i _ => Finset.sum_eq_zero fun j _ =>
      zeroTotal i j

theorem C6_witness :
    lookupScen wScen "atm" = some 0 ∧
    computeGrids wBook wScen 100 "atm" wParams = .ok wGridsAtm ∧
    wGridsAtm.iv.cell 0 0 = 0 ∧ wGridsAtm.vannaPnl.cell 0 0 = 0 ∧
    wGridsAtm.volgaPnl.cell 0 0 = 0 ∧ wGridsAtm.totalPnl.cell 0 0 = 0 ∧
    calculate_pnl wBook wScen 100 "atm" wParams = .ok wResultAtm ∧
    wResultAtm.total_pnl = 0 := by
  have h := C6_zero_shock wBook wScen 100 "atm" wParams rfl
  exact ⟨rfl, rfl, (h.1 wGridsAtm rfl).1 0 0, (h.1 wGridsAtm rfl).2.1 0 0,
    (h.1 wGridsAtm rfl).2.2.1 0 0, (h.1 wGridsAtm rfl).2.2.2 0 0, rfl,
    h.2 wResultAtm rfl⟩

/-- C8: when the book holds a grid for exactly the labels of the scenario
set (the documented GridBook invariant), `calculate_pnl` fails with
`UnknownScenario` precisely when the requested label is absent from the
scenario set, and on that failure no result value is produced. -/
theorem C8_unknown_scenario (book : GridBook) (scen : ScenarioSet)
    (cs : ℝ) (label : String) (p : ModelParameters)
    (hkeys : ∀ l, (lookupScen scen l).isSome = (lookupBook book l).isSome) :
    (calculate_pnl book scen cs label p = .error .unknownScenario ↔
      lookupScen scen label = none) ∧
    (lookupScen scen label = none →
      ∀ r, calculate_pnl book scen cs label p ≠ .ok r) := by
  have hcg_iff : computeGrids book scen cs label p =
      .error .unknownScenario ↔ lookupScen scen label = none := by
    constructor
    · intro h
      cases hs : lookupScen scen label with
      | none => rfl
      | some spot =>
        exfalso
        simp only [computeGrids, hs] at h
        have hb2 : (lookupBook book label).isSome = true := by
          rw [← hkeys label, hs]; rfl
        obtain ⟨vega, hb⟩ := Option.isSome_iff_exists.1 hb2
        simp only [hb] at h
        by_cases ht : vega.expiryDays.all (fun d => decide (0 < d)) = true
        · rw [if_pos ht] at h
          cases hv : GreeksCalculator.estimate_vanna_from_grids
              ⟨p.volga_scalar⟩ book scen cs with
          | error e =>
            simp only [hv] at h
            obtain rfl := estimate_vanna_error _ _ _ _ hkeys e hv
            exact EngineError.noConfusion (Except.error.inj h)
          | ok vanna =>
            simp only [hv] at h
            cases hz : findZero scen with
            | none =>
              simp only [hz] at h
              exact EngineError.noConfusion (Except.error.inj h)
            | some z =>
              simp only [hz] at h
              have hzm : (lookupBook book z.1).isSome = true := by
                rw [← hkeys z.1]
                exact lookupScen_isSome_of_mem _ _ (findZero_mem _ _ hz)
              obtain ⟨refG, hrG⟩ := Option.isSome_iff_exists.1 hzm
              simp only [hrG] at h
              cases hvo : GreeksCalculator.estimate_volga ⟨p.volga_scalar⟩
                  refG with
              | error e =>
                simp only [hvo] at h
                obtain rfl := estimate_volga_error _ _ e hvo
                exact EngineError.noConfusion (Except.error.inj h)
              | ok volga =>
                simp only [hvo] at h
                exact Except.noConfusion h
        · rw [if_neg ht] at h
          exact EngineError.noConfusion (Except.error.inj h)
    · intro h
      simp only [computeGrids, h]
  have hcalc_err : ∀ e, calculate_pnl book scen cs label p = .error e ↔
      computeGrids book scen cs label p = .error e := by
    intro e
    cases hcg : computeGrids book scen cs label p with
    | error e2 =>
      have hc : calculate_pnl book scen cs label p = .error e2 := by
        simp only [calculate_pnl, hcg]
      rw [hc]
      simp only [Except.error.injEq]
    | ok G =>
      have hc : calculate_pnl book scen cs label p =
          .ok (assembleResult G) := by
        simp only [calculate_pnl, hcg]
      rw [hc]
      constructor
      · intro hh; exact Except.noConfusion hh
      · intro hh; exact Except.noConfusion hh
  constructor
  · rw [hcalc_err EngineError.unknownScenario]
    exact hcg_iff
  · intro h r hr
    have h2 : calculate_pnl book scen cs label p =
        .error .unknownScenario :=
      (hcalc_err EngineError.unknownScenario).2 (hcg_iff.2 h)
    rw [h2] at hr
    exact Except.noConfusion hr

theorem C8_witness :
    (∀ l, (lookupScen wScen l).isSome = (lookupBook wBook l).isSome) ∧
    (calculate_pnl wBook wScen 100 "nope" wParams =
        .error .unknownScenario ↔
      lookupScen wScen "nope" = none) := by
  have hk : ∀ l, (lookupScen wScen l).isSome = (lookupBook wBook l).isSome := by
    intro l
    simp only [wScen, wBook, lookupScen, lookupBook]
    split_ifs <;> rfl
  exact ⟨hk, (C8_unknown_scenario wBook wScen 100 "nope" wParams hk).1⟩

end Theorems
